import Mathlib

/-!
Verification of the HIT_radar point-cloud decoding pipeline.

The repository holds four near-duplicate Python sources (`radar.py`,
`radar1.py`, `radar2.py`, `iwr1843.py`), each with a `_parse_pointcloud`
decoder and (except `iwr1843.py`) a capture loop / session controller on a
`TI1843Radar` class.  This file gives a shallow embedding of those functions:

* byte buffers are `List Nat` (each element a byte value 0..255 on the wire);
* Python slices `b[s:e]` become `slice b s (e - s) = (b.drop s).take e-s`;
* `struct.unpack` of little-endian 32-bit words becomes `le32`; its failure
  condition (slice length differing from the format size) is modelled by the
  explicit length guards that mirror where the Python call would raise;
* IEEE-754 binary32 values are carried as their 32-bit patterns.  The only
  float operation the code performs is `==` against `0`, and a binary32
  value compares numerically equal to 0.0 exactly when its bit pattern is
  0x00000000 (+0.0) or 0x80000000 (-0.0); `floatBitsEqZero` embeds that;
* the `try ... except` bodies become `Except ParseErr` computations, and the
  public functions squash every error to the empty list exactly as the
  `except` handlers return `np.empty((0, 4))`.
-/

set_option maxRecDepth 40000

namespace HITRadar

/-- The 8-byte frame synchronization marker `MAGIC_WORD`
(`b'\x02\x01\x04\x03\x06\x05\x08\x07'`, identical in all four sources). -/
def MAGIC_WORD : List Nat := [2, 1, 4, 3, 6, 5, 8, 7]

/-- Python slice `b[s : s+len]` for a byte buffer (start and length
non-negative; Python clamps at the end of the buffer, as `take` does). -/
def slice (b : List Nat) (s len : Nat) : List Nat := (b.drop s).take len

/-- Little-endian 32-bit word from four bytes, the successful result of
`struct.unpack('<I', bs)` (and of the native-order `'f'` on the x86 host,
read back as the raw bit pattern).  Callers guard the length themselves,
as `struct.unpack` raises on any other length. -/
def le32 (bs : List Nat) : Nat :=
  match bs with
  | [b0, b1, b2, b3] => b0 + 256 * b1 + 65536 * b2 + 16777216 * b3
  | _ => 0

/-- One decoded point record: the four binary32 bit patterns produced by
`struct.unpack('4f', point_data)`, in wire order x, y, z, velocity. -/
structure Point where
  x : Nat
  y : Nat
  z : Nat
  vel : Nat
deriving Repr, DecidableEq

/-- Decode a 16-byte record slice into its four 32-bit fields. -/
def decodeRecord (bs : List Nat) : Point :=
  { x := le32 (slice bs 0 4)
    y := le32 (slice bs 4 4)
    z := le32 (slice bs 8 4)
    vel := le32 (slice bs 12 4) }

/-- A binary32 value compares numerically equal to `0` (Python `x == 0`)
iff its bit pattern is +0.0 (`0x00000000`) or -0.0 (`0x80000000`); every
other pattern denotes a nonzero real, an infinity or a NaN, none of which
equals 0 under IEEE-754 comparison. -/
def floatBitsEqZero (bits : Nat) : Bool :=
  bits == 0 || bits == 2147483648

/-- Python `(x, y, z) == (0, 0, 0)` on the unpacked floats: componentwise
numeric equality with zero.  The sources keep a record iff this is false. -/
def isZeroTriple (p : Point) : Bool :=
  floatBitsEqZero p.x && floatBitsEqZero p.y && floatBitsEqZero p.z

/-- The validity predicate as the claim's words describe it: exact bit
comparison of the (x, y, z) patterns against zero.  This differs from the
code's `isZeroTriple` on -0.0 (pattern `0x80000000`); it exists only to be
compared against the decoder. -/
def specBitValid (p : Point) : Bool :=
  !(p.x == 0 && p.y == 0 && p.z == 0)

/-- The record-reading loop of `radar.py` / `iwr1843.py`:
`for offset in range(0, num_points*16, 16)` slices
`buffer[data_start+offset : data_start+offset+16]`, breaks when the slice
is short, unpacks otherwise, and appends the record unless its (x, y, z)
triple equals (0, 0, 0). -/
def readPointsAbs (b : List Nat) (pos : Nat) : Nat → List Point
  | 0 => []
  | n + 1 =>
    let pd := slice b pos 16
    if pd.length < 16 then []
    else
      let p := decodeRecord pd
      if isZeroTriple p then readPointsAbs b (pos + 16) n
      else p :: readPointsAbs b (pos + 16) n

/-- The record-reading loop of `radar1.py` / `radar2.py`:
`for i in range(num_points)` unpacks `buffer[off+i*16 : off+i*16+16]`
with no length guard, so a short slice raises `struct.error` inside the
loop and the whole parse falls into the `except` handler (`none` here),
discarding even the records already appended. -/
def readPointsOptAbs (b : List Nat) (pos : Nat) : Nat → Option (List Point)
  | 0 => some []
  | n + 1 =>
    let pd := slice b pos 16
    if pd.length < 16 then none
    else
      let p := decodeRecord pd
      match readPointsOptAbs b (pos + 16) n with
      | none => none
      | some rest => some (if isZeroTriple p then rest else p :: rest)

/-- First index of `MAGIC_WORD` in the buffer, scanning left to right
(`bytes.index` semantics; `none` models the `ValueError` when absent). -/
def findMagicAux : List Nat → Nat → Option Nat
  | [], _ => none
  | x :: rest, i =>
    if (x :: rest).take 8 == MAGIC_WORD then some i
    else findMagicAux rest (i + 1)

/-- `buffer.index(MAGIC_WORD)` as an `Option`. -/
def findMagic (b : List Nat) : Option Nat := findMagicAux b 0

/-- The distinct internal failure points of the `try` bodies. -/
inductive ParseErr where
  | noMagic
  | headerShort
  | tlvShort
  | recordShort
deriving Repr, DecidableEq

/-- Record reading re-expressed over the byte suffix that starts at the
record area; proof-layer companion of `readPointsAbs`. -/
def readPointsRel : List Nat → Nat → List Point
  | _, 0 => []
  | bytes, n + 1 =>
    if bytes.length < 16 then []
    else
      let p := decodeRecord (bytes.take 16)
      if isZeroTriple p then readPointsRel (bytes.drop 16) n
      else p :: readPointsRel (bytes.drop 16) n

/-- Proof-layer companion of `readPointsOptAbs`. -/
def readPointsOptRel : List Nat → Nat → Option (List Point)
  | _, 0 => some []
  | bytes, n + 1 =>
    if bytes.length < 16 then none
    else
      let p := decodeRecord (bytes.take 16)
      match readPointsOptRel (bytes.drop 16) n with
      | none => none
      | some rest => some (if isZeroTriple p then rest else p :: rest)

/-- The at most `n` fully-present 16-byte records at the head of `bytes`,
stopping at the first short remainder. -/
def chunk16 : Nat → List Nat → List (List Nat)
  | 0, _ => []
  | n + 1, bytes =>
    if bytes.length < 16 then []
    else bytes.take 16 :: chunk16 n (bytes.drop 16)

/-- The `try` body of `_parse_pointcloud` in `radar.py` (lines 70-99):
locate the marker, slice `header = buffer[idx:idx+40]`, unpack the seven
header words from `header[8:36]` (bound but never used), unpack the TLV
header from `buffer[idx+40:idx+48]`, cap `num_points = tlv_length // 16`
at 1000, then run the record loop from `idx + 48`.  Each length guard
sits exactly where the corresponding `struct.unpack` would raise. -/
def parseBody_radar (b : List Nat) : Except ParseErr (List Point) :=
  match findMagic b with
  | none => .error .noMagic
  | some idx =>
    let header := slice b idx 40
    let hfield := slice header 8 28
    if hfield.length ≠ 28 then .error .headerShort
    else
      let tlvB := slice b (idx + 40) 8
      if tlvB.length ≠ 8 then .error .tlvShort
      else
        let _tlv_type := le32 (slice tlvB 0 4)
        let tlv_length := le32 (slice tlvB 4 4)
        let num_points := tlv_length / 16
        if num_points > 1000 then .ok []
        else .ok (readPointsAbs b (idx + 48) num_points)

/-- `_parse_pointcloud` of `radar.py`: the `except` handler turns every
internal failure into `np.empty((0, 4))`, i.e. the empty point list. -/
def parse_radar (b : List Nat) : List Point :=
  match parseBody_radar b with
  | .ok pts => pts
  | .error _ => []

/-- The `try` body of `_parse_pointcloud` in `iwr1843.py` (lines 30-59),
byte-for-byte the same decoding steps as `radar.py` (its `except` branch
additionally prints the error before returning empty). -/
def parseBody_iwr1843 (b : List Nat) : Except ParseErr (List Point) :=
  match findMagic b with
  | none => .error .noMagic
  | some idx =>
    let header := slice b idx 40
    let hfield := slice header 8 28
    if hfield.length ≠ 28 then .error .headerShort
    else
      let tlvB := slice b (idx + 40) 8
      if tlvB.length ≠ 8 then .error .tlvShort
      else
        let _tlv_type := le32 (slice tlvB 0 4)
        let tlv_length := le32 (slice tlvB 4 4)
        let num_points := tlv_length / 16
        if num_points > 1000 then .ok []
        else .ok (readPointsAbs b (idx + 48) num_points)

/-- `_parse_pointcloud` of `iwr1843.py`. -/
def parse_iwr1843 (b : List Nat) : List Point :=
  match parseBody_iwr1843 b with
  | .ok pts => pts
  | .error _ => []

/-- The `try` body of `_parse_pointcloud` in `radar1.py` (lines 78-98):
same marker/header/TLV steps, but it additionally returns the empty frame
when `tlv_type != 1`, and its record loop has no per-record length guard,
so a short record slice raises out of the loop. -/
def parseBody_radar1 (b : List Nat) : Except ParseErr (List Point) :=
  match findMagic b with
  | none => .error .noMagic
  | some idx =>
    let header := slice b idx 40
    let hfield := slice header 8 28
    if hfield.length ≠ 28 then .error .headerShort
    else
      let tlvB := slice b (idx + 40) 8
      if tlvB.length ≠ 8 then .error .tlvShort
      else
        let tlv_type := le32 (slice tlvB 0 4)
        let tlv_length := le32 (slice tlvB 4 4)
        if tlv_type ≠ 1 then .ok []
        else
          let num_points := tlv_length / 16
          if num_points > 1000 then .ok []
          else
            match readPointsOptAbs b (idx + 48) num_points with
            | none => .error .recordShort
            | some pts => .ok pts

/-- `_parse_pointcloud` of `radar1.py`. -/
def parse_radar1 (b : List Nat) : List Point :=
  match parseBody_radar1 b with
  | .ok pts => pts
  | .error _ => []

/-- The `try` body of `_parse_pointcloud` in `radar2.py` (lines 83-103),
textually identical to `radar1.py`'s. -/
def parseBody_radar2 (b : List Nat) : Except ParseErr (List Point) :=
  match findMagic b with
  | none => .error .noMagic
  | some idx =>
    let header := slice b idx 40
    let hfield := slice header 8 28
    if hfield.length ≠ 28 then .error .headerShort
    else
      let tlvB := slice b (idx + 40) 8
      if tlvB.length ≠ 8 then .error .tlvShort
      else
        let tlv_type := le32 (slice tlvB 0 4)
        let tlv_length := le32 (slice tlvB 4 4)
        if tlv_type ≠ 1 then .ok []
        else
          let num_points := tlv_length / 16
          if num_points > 1000 then .ok []
          else
            match readPointsOptAbs b (idx + 48) num_points with
            | none => .error .recordShort
            | some pts => .ok pts

/-- `_parse_pointcloud` of `radar2.py`. -/
def parse_radar2 (b : List Nat) : List Point :=
  match parseBody_radar2 b with
  | .ok pts => pts
  | .error _ => []

/-- Abbreviation for the `tlvLength` field: the little-endian word at
offset 44 from the sync marker. -/
def tlvLengthAt (b : List Nat) (idx : Nat) : Nat := le32 (slice b (idx + 44) 4)

/-- Abbreviation for the `tlvType` field: the little-endian word at
offset 40 from the sync marker. -/
def tlvTypeAt (b : List Nat) (idx : Nat) : Nat := le32 (slice b (idx + 40) 4)

/-!
Session / capture-loop model, following `TI1843Radar` in `radar.py`
(the `radar1.py` / `radar2.py` versions differ only in not tracking
`points_count`).  `workers` counts the capture threads spawned by
`threading.Thread(...).start()` and still running.
-/

/-- The mutable state of a `TI1843Radar` object visible to the capture
claims.  `connected` abstracts `is_connected()` (both serial handles open). -/
structure RadarState where
  connected : Bool
  running : Bool
  capturing : Bool
  buffer : List Nat
  points_count : Nat
  workers : Nat
deriving Repr, DecidableEq

/-- `start_capture` of `radar.py` (lines 103-131) up to the thread spawn:
reject when not connected or already capturing, otherwise set the flags,
reset the buffer and counter, and activate one more worker. -/
def start_capture (s : RadarState) : RadarState × Bool :=
  if !s.connected || s.capturing then (s, false)
  else
    ({ s with capturing := true, running := true, buffer := [],
              points_count := 0, workers := s.workers + 1 }, true)

/-- One iteration of `_capture_loop` (radar.py lines 114-124) on one poll
result `incoming` (the bytes `self.data.read(self.data.in_waiting)` would
return; empty models `in_waiting == 0`).  Returns the next state and the
frame passed to the callback, if any. -/
def capture_step (s : RadarState) (incoming : List Nat) :
    RadarState × Option (List Point) :=
  if incoming.length = 0 then (s, none)
  else
    let buf := s.buffer ++ incoming
    if (findMagic buf).isSome then
      let pts := parse_radar buf
      ({ s with buffer := [], points_count := pts.length },
        if 0 < pts.length then some pts else none)
    else
      ({ s with buffer := buf }, none)

/-- What one loop iteration observes from the outside world: either a poll
delivering bytes, or an unexpected exception raised inside the iteration
(e.g. by `self.data.read` or the callback). -/
inductive CapEvent where
  | recv (bytes : List Nat)
  | raise
deriving Repr

/-- Run the capture worker over a finite script of events.  The `while
self.running` guard is checked before each iteration; leaving the loop
(guard false, or `break` from the `except` handler) falls through to
`self.capturing = False`.  An exhausted script leaves the worker parked
mid-loop, state unchanged. -/
def runWorker : RadarState → List CapEvent → RadarState × List (List Point)
  | s, [] => (s, [])
  | s, ev :: rest =>
    if !s.running then ({ s with capturing := false }, [])
    else
      match ev with
      | .raise => ({ s with capturing := false }, [])
      | .recv bytes =>
        let sp := capture_step s bytes
        let res := runWorker sp.1 rest
        (res.1, match sp.2 with
                | none => res.2
                | some f => f :: res.2)

/-!
Concrete wire data used to exercise the decoders: a minimal frame builder
and a few 16-byte records, following the wire layout (sync marker at 0,
seven ignored header words and one padding word in bytes 8..40, TLV header
at 40, records from 48).
-/

/-- Little-endian encoding of a 32-bit value into four bytes. -/
def le32bytes (n : Nat) : List Nat :=
  [n % 256, n / 256 % 256, n / 65536 % 256, n / 16777216 % 256]

/-- A buffer holding one frame at offset 0: marker, 32 zero header bytes,
TLV header, then the given payload bytes. -/
def mkFrame (tlvType tlvLen : Nat) (payload : List Nat) : List Nat :=
  MAGIC_WORD ++ List.replicate 32 0 ++ le32bytes tlvType ++ le32bytes tlvLen ++ payload

/-- Record with x = 1.0f (bits 0x3F800000), y = z = vel = 0. -/
def recOne : List Nat := [0, 0, 128, 63] ++ List.replicate 12 0

/-- Record with x = 2.0f (bits 0x40000000), y = z = vel = 0. -/
def recTwo : List Nat := [0, 0, 0, 64] ++ List.replicate 12 0

/-- Record with x = -0.0f (bits 0x80000000), y = z = 0, vel = 1.0f: its
(x, y, z) bit patterns are not all zero, yet it compares numerically equal
to (0, 0, 0). -/
def recNegZero : List Nat := [0, 0, 0, 128] ++ List.replicate 8 0 ++ [0, 0, 128, 63]

/-- The all-zero record, plainly invalid. -/
def recZero : List Nat := List.replicate 16 0

/-- Decoded form of `recOne`. -/
def pOne : Point := ⟨1065353216, 0, 0, 0⟩

/-- Decoded form of `recTwo`. -/
def pTwo : Point := ⟨1073741824, 0, 0, 0⟩

/-- Decoded form of `recNegZero`. -/
def pNegZero : Point := ⟨2147483648, 0, 0, 1065353216⟩

/-- A capture-session state as it stands right after a successful
`start_capture`: connected, running, capturing, empty buffer, one worker. -/
def capturingState : RadarState :=
  { connected := true, running := true, capturing := true,
    buffer := [], points_count := 0, workers := 1 }

theorem slice_length (b : List Nat) (s len : Nat) :
    (slice b s len).length = min len (b.length - s) := by
  simp [slice]

theorem slice_slice (b : List Nat) (s l u v : Nat) :
    slice (slice b s l) u v = slice b (s + u) (min v (l - u)) := by
  simp only [slice]
  rw [List.drop_take l u (b.drop s), List.drop_drop u s b,
    List.take_take v (l - u) (b.drop (s + u))]

theorem readPointsAbs_eq_rel :
    ∀ (n : Nat) (b : List Nat) (pos : Nat),
      readPointsAbs b pos n = readPointsRel (b.drop pos) n := by
  intro n
  induction n with
  | zero => intro b pos; rfl
  | succ n ih =>
    intro b pos
    have hlen : (slice b pos 16).length < 16 ↔ (b.drop pos).length < 16 := by
      rw [slice_length, List.length_drop]; omega
    have hdrop : (b.drop pos).drop 16 = b.drop (pos + 16) :=
      List.drop_drop 16 pos b
    simp only [readPointsAbs, readPointsRel]
    by_cases h : (b.drop pos).length < 16
    · rw [if_pos (hlen.mpr h), if_pos h]
    · rw [if_neg (fun hc => h (hlen.mp hc)), if_neg h]
      have hsl : slice b pos 16 = (b.drop pos).take 16 := rfl
      rw [hsl, hdrop, ih]

theorem readPointsOptAbs_eq_rel :
    ∀ (n : Nat) (b : List Nat) (pos : Nat),
      readPointsOptAbs b pos n = readPointsOptRel (b.drop pos) n := by
  intro n
  induction n with
  | zero => intro b pos; rfl
  | succ n ih =>
    intro b pos
    have hlen : (slice b pos 16).length < 16 ↔ (b.drop pos).length < 16 := by
      rw [slice_length, List.length_drop]; omega
    have hdrop : (b.drop pos).drop 16 = b.drop (pos + 16) :=
      List.drop_drop 16 pos b
    simp only [readPointsOptAbs, readPointsOptRel]
    by_cases h : (b.drop pos).length < 16
    · rw [if_pos (hlen.mpr h), if_pos h]
    · rw [if_neg (fun hc => h (hlen.mp hc)), if_neg h]
      have hsl : slice b pos 16 = (b.drop pos).take 16 := rfl
      rw [hsl, hdrop, ih]

theorem readPointsRel_eq_chunk :
    ∀ (n : Nat) (bytes : List Nat),
      readPointsRel bytes n =
        ((chunk16 n bytes).map decodeRecord).filter (fun p => !isZeroTriple p) := by
  intro n
  induction n with
  | zero => intro bytes; rfl
  | succ n ih =>
    intro bytes
    simp only [readPointsRel, chunk16]
    by_cases h : bytes.length < 16
    · simp [h]
    · rw [if_neg h, if_neg h]
      cases hz : isZeroTriple (decodeRecord (bytes.take 16)) with
      | false => simp [List.filter, hz, ih]
      | true => simp [List.filter, hz, ih]

theorem readPointsRel_take :
    ∀ (n : Nat) (bytes : List Nat),
      readPointsRel (bytes.take (16 * n)) n = readPointsRel bytes n := by
  intro n
  induction n with
  | zero => intro bytes; rfl
  | succ n ih =>
    intro bytes
    have h16 : 16 ≤ 16 * (n + 1) := by omega
    have hm1 : min 16 (16 * (n + 1)) = 16 := by omega
    have hm2 : 16 * (n + 1) - 16 = 16 * n := by omega
    have htk : (bytes.take (16 * (n + 1))).take 16 = bytes.take 16 := by
      rw [List.take_take, hm1]
    have hdt : (bytes.take (16 * (n + 1))).drop 16 = (bytes.drop 16).take (16 * n) := by
      rw [List.drop_take, hm2]
    have hl : (bytes.take (16 * (n + 1))).length < 16 ↔ bytes.length < 16 := by
      rw [List.length_take]; omega
    simp only [readPointsRel]
    by_cases h : bytes.length < 16
    · rw [if_pos (hl.mpr h), if_pos h]
    · rw [if_neg (fun hc => h (hl.mp hc)), if_neg h, htk, hdt, ih]

theorem readPointsOptRel_some :
    ∀ (n : Nat) (bytes : List Nat), 16 * n ≤ bytes.length →
      readPointsOptRel bytes n = some (readPointsRel bytes n) := by
  intro n
  induction n with
  | zero => intro bytes _; rfl
  | succ n ih =>
    intro bytes h
    have h16 : ¬ bytes.length < 16 := by omega
    have hrec : 16 * n ≤ (bytes.drop 16).length := by
      rw [List.length_drop]; omega
    simp only [readPointsOptRel, readPointsRel]
    rw [if_neg h16, if_neg h16, ih (bytes.drop 16) hrec]

theorem readPointsOptRel_none :
    ∀ (n : Nat) (bytes : List Nat), bytes.length < 16 * n →
      readPointsOptRel bytes n = none := by
  intro n
  induction n with
  | zero => intro bytes h; omega
  | succ n ih =>
    intro bytes h
    simp only [readPointsOptRel]
    by_cases h16 : bytes.length < 16
    · rw [if_pos h16]
    · rw [if_neg h16]
      have : (bytes.drop 16).length < 16 * n := by
        rw [List.length_drop]; omega
      rw [ih (bytes.drop 16) this]

theorem chunk16_flatten :
    ∀ (recs : List (List Nat)) (n : Nat) (rest : List Nat),
      (∀ r ∈ recs, r.length = 16) → recs.length ≤ n → rest.length < 16 →
      chunk16 n (recs.flatten ++ rest) = recs := by
  intro recs
  induction recs with
  | nil =>
    intro n rest _ _ hrest
    cases n with
    | zero => rfl
    | succ n => simp only [List.flatten, List.nil_append, chunk16]; rw [if_pos hrest]
  | cons r rs ih =>
    intro n rest hall hle hrest
    cases n with
    | zero => simp at hle
    | succ n =>
      have hr : r.length = 16 := hall r (by simp)
      have hbytes : (r ++ (rs.flatten ++ rest)).length = 16 + (rs.flatten ++ rest).length := by
        simp [hr]
      simp only [List.flatten, chunk16, List.append_assoc]
      rw [if_neg (by rw [hbytes]; omega),
        List.take_left' hr, List.drop_left' hr,
        ih n rest (fun x hx => hall x (by simp [hx])) (by simpa using hle) hrest]

theorem hfield_length (b : List Nat) (idx : Nat) (h : idx + 48 ≤ b.length) :
    (slice (slice b idx 40) 8 28).length = 28 := by
  rw [slice_length, slice_length]; omega

theorem tlvB_length (b : List Nat) (idx : Nat) (h : idx + 48 ≤ b.length) :
    (slice b (idx + 40) 8).length = 8 := by
  rw [slice_length]; omega

theorem tlv_slices (b : List Nat) (idx : Nat) :
    slice (slice b (idx + 40) 8) 0 4 = slice b (idx + 40) 4 ∧
    slice (slice b (idx + 40) 8) 4 4 = slice b (idx + 44) 4 := by
  constructor
  · rw [slice_slice]
    have h1 : idx + 40 + 0 = idx + 40 := by omega
    have h2 : min 4 (8 - 0) = 4 := by omega
    rw [h1, h2]
  · rw [slice_slice]
    have h1 : idx + 40 + 4 = idx + 44 := by omega
    have h2 : min 4 (8 - 4) = 4 := by omega
    rw [h1, h2]

theorem parseBody_radar_eq (b : List Nat) (idx : Nat)
    (hm : findMagic b = some idx) (hlen : idx + 48 ≤ b.length) :
    parseBody_radar b =
      (if 1000 < tlvLengthAt b idx / 16 then Except.ok []
       else Except.ok (readPointsAbs b (idx + 48) (tlvLengthAt b idx / 16))) := by
  unfold parseBody_radar
  rw [hm]
  simp only [hfield_length b idx hlen, tlvB_length b idx hlen,
    (tlv_slices b idx).2, tlvLengthAt]
  norm_num

theorem parseBody_radar1_eq (b : List Nat) (idx : Nat)
    (hm : findMagic b = some idx) (hlen : idx + 48 ≤ b.length) :
    parseBody_radar1 b =
      (if tlvTypeAt b idx ≠ 1 then Except.ok []
       else if 1000 < tlvLengthAt b idx / 16 then Except.ok []
       else match readPointsOptAbs b (idx + 48) (tlvLengthAt b idx / 16) with
            | none => Except.error ParseErr.recordShort
            | some pts => Except.ok pts) := by
  unfold parseBody_radar1
  rw [hm]
  simp only [hfield_length b idx hlen, tlvB_length b idx hlen,
    (tlv_slices b idx).1, (tlv_slices b idx).2, tlvLengthAt, tlvTypeAt]
  norm_num

theorem parse_radar_eq_parse_iwr1843 (b : List Nat) :
    parse_radar b = parse_iwr1843 b := rfl

theorem parse_radar1_eq_parse_radar2 (b : List Nat) :
    parse_radar1 b = parse_radar2 b := rfl

theorem parseBody_radar_short (b : List Nat) (idx : Nat)
    (hm : findMagic b = some idx) (hlen : b.length < idx + 40) :
    parseBody_radar b = .error .headerShort ∨ parseBody_radar b = .error .tlvShort := by
  unfold parseBody_radar
  rw [hm]
  by_cases h1 : (slice (slice b idx 40) 8 28).length = 28
  · right
    have h2 : (slice b (idx + 40) 8).length ≠ 8 := by
      rw [slice_length]; omega
    simp [h1, h2]
  · left
    simp [h1]

theorem parse_radar_error (b : List Nat) (e : ParseErr)
    (h : parseBody_radar b = .error e) : parse_radar b = [] := by
  unfold parse_radar
  rw [h]

theorem parse_radar_ne_nil (b : List Nat) (h : parse_radar b ≠ []) :
    ∃ idx, findMagic b = some idx ∧ idx + 48 ≤ b.length := by
  unfold parse_radar parseBody_radar at h
  cases hm : findMagic b with
  | none => rw [hm] at h; simp at h
  | some idx =>
    refine ⟨idx, rfl, ?_⟩
    rw [hm] at h
    by_cases h1 : (slice (slice b idx 40) 8 28).length = 28
    · by_cases h2 : (slice b (idx + 40) 8).length = 8
      · rw [slice_length] at h2; omega
      · simp [h1, h2] at h
    · simp [h1] at h

theorem length_filter_not_add (p : Point → Bool) :
    ∀ l : List Point,
      (l.filter fun x => !p x).length + (l.filter p).length = l.length := by
  intro l
  induction l with
  | nil => rfl
  | cons a t ih => cases h : p a <;> simp [List.filter, h] <;> omega

theorem flatten_length_of_all16 :
    ∀ recs : List (List Nat), (∀ r ∈ recs, r.length = 16) →
      recs.flatten.length = 16 * recs.length := by
  intro recs
  induction recs with
  | nil => intro _; rfl
  | cons r rs ih =>
    intro h
    have hr : r.length = 16 := h r (by simp)
    have hrs := ih (fun x hx => h x (by simp [hx]))
    simp only [List.flatten, List.length_append, List.length_cons, hr, hrs]
    omega

/-- **C1** (as stated, refuted): validity is NOT decided by exact bit
comparison.  In this frame the single record has x = -0.0f (bit pattern
`0x80000000`), so its (x, y, z) bit patterns differ from (0, 0, 0) and the
claimed bit-comparison filter keeps it (`specBitValid` is true), yet the
decoder drops it, because Python's numeric comparison treats -0.0 as 0. -/
theorem C1_counterexample :
    parse_radar (mkFrame 1 16 recNegZero) = [] ∧
    decodeRecord recNegZero = pNegZero ∧
    specBitValid pNegZero = true ∧
    ([pNegZero].filter specBitValid).length = 1 := by decide

/-- **C1** (amended): for every decoded frame (marker located, TLV header
present, point count within the cap), the returned list is exactly the
fully-present records whose (x, y, z) triple is not numerically zero —
where -0.0 counts as zero — in wire order; the count is N minus the number
of zero-triple records; and the validity test depends only on the x, y, z
fields, never on velocity. -/
theorem C1_zero_filter (b : List Nat) (idx : Nat)
    (hm : findMagic b = some idx) (hlen : idx + 48 ≤ b.length)
    (hcap : tlvLengthAt b idx / 16 ≤ 1000) :
    parse_radar b =
      ((chunk16 (tlvLengthAt b idx / 16) (b.drop (idx + 48))).map decodeRecord).filter
        (fun p => !isZeroTriple p) ∧
    (parse_radar b).length =
      ((chunk16 (tlvLengthAt b idx / 16) (b.drop (idx + 48))).map decodeRecord).length -
      (((chunk16 (tlvLengthAt b idx / 16) (b.drop (idx + 48))).map decodeRecord).filter
        isZeroTriple).length ∧
    (∀ p q : Point, p.x = q.x → p.y = q.y → p.z = q.z →
      isZeroTriple p = isZeroTriple q) := by
  have h1 : parse_radar b =
      ((chunk16 (tlvLengthAt b idx / 16) (b.drop (idx + 48))).map decodeRecord).filter
        (fun p => !isZeroTriple p) := by
    unfold parse_radar
    rw [parseBody_radar_eq b idx hm hlen, if_neg (Nat.not_lt.mpr hcap),
      readPointsAbs_eq_rel, readPointsRel_eq_chunk]
  refine ⟨h1, ?_, ?_⟩
  · rw [h1]
    have := length_filter_not_add isZeroTriple
      ((chunk16 (tlvLengthAt b idx / 16) (b.drop (idx + 48))).map decodeRecord)
    omega
  · intro p q hx hy hz
    unfold isZeroTriple
    rw [hx, hy, hz]

/-- Witness for C1 at a three-record frame whose middle record is all
zeros (Scenario A of the spec): the decoder keeps records 1 and 3. -/
theorem C1_zero_filter_witness :
    parse_radar (mkFrame 1 48 (recOne ++ recZero ++ recTwo)) =
      ((chunk16 3 ((mkFrame 1 48 (recOne ++ recZero ++ recTwo)).drop 48)).map
        decodeRecord).filter (fun p => !isZeroTriple p) ∧
    parse_radar (mkFrame 1 48 (recOne ++ recZero ++ recTwo)) = [pOne, pTwo] :=
  ⟨(C1_zero_filter (mkFrame 1 48 (recOne ++ recZero ++ recTwo)) 0
      (by decide) (by decide) (by decide)).1, by decide⟩

/-- **C2**: whenever the buffer has the sync marker and a decodable TLV
header whose `tlvLength / 16` exceeds 1000, decoding yields the empty
result — whatever else the buffer holds — and no exception escapes (the
functions return a value on every input by construction). -/
theorem C2_corruption_cap (b : List Nat) (idx : Nat)
    (hm : findMagic b = some idx) (hlen : idx + 48 ≤ b.length)
    (hcap : 1000 < tlvLengthAt b idx / 16) :
    parse_radar b = [] ∧ parse_radar2 b = [] := by
  constructor
  · unfold parse_radar
    rw [parseBody_radar_eq b idx hm hlen, if_pos hcap]
  · rw [← parse_radar1_eq_parse_radar2]
    unfold parse_radar1
    rw [parseBody_radar1_eq b idx hm hlen]
    by_cases ht : tlvTypeAt b idx ≠ 1
    · rw [if_pos ht]
    · rw [if_neg ht, if_pos hcap]

/-- Witness for C2 at a frame whose TLV length is 20000 (numPoints 1250). -/
theorem C2_corruption_cap_witness :
    parse_radar (mkFrame 1 20000 []) = [] ∧ parse_radar2 (mkFrame 1 20000 []) = [] :=
  C2_corruption_cap (mkFrame 1 20000 []) 0 (by decide) (by decide) (by decide)

/-- **C3** (as stated, refuted): partial-tail tolerance does not hold for
the cited `radar2.py` decoder.  This frame announces two records
(tlvLength 32), carries one full record decoding to `pOne` plus eight
stray bytes; `radar.py` returns the fully-present record, but `radar2.py`
returns the empty result (its record loop raises on the short slice). -/
theorem C3_counterexample :
    parse_radar2 (mkFrame 1 32 (recOne ++ [1, 2, 3, 4, 5, 6, 7, 8])) = [] ∧
    parse_radar (mkFrame 1 32 (recOne ++ [1, 2, 3, 4, 5, 6, 7, 8])) = [pOne] := by
  decide

/-- **C3** (amended): on a buffer with marker, header and TLV whose record
area is truncated before the last announced record, `radar.py` and
`iwr1843.py` return exactly the fully-present preceding records (passed
through the usual zero filter), while `radar1.py` and `radar2.py` return
the empty result. -/
theorem C3_partial_tail (b : List Nat) (idx : Nat)
    (recs : List (List Nat)) (rest : List Nat)
    (hm : findMagic b = some idx) (hlen : idx + 48 ≤ b.length)
    (hdrop : b.drop (idx + 48) = recs.flatten ++ rest)
    (hall : ∀ r ∈ recs, r.length = 16)
    (hcount : recs.length < tlvLengthAt b idx / 16)
    (hcap : tlvLengthAt b idx / 16 ≤ 1000)
    (hrest : rest.length < 16) :
    parse_radar b = (recs.map decodeRecord).filter (fun p => !isZeroTriple p) ∧
    parse_iwr1843 b = (recs.map decodeRecord).filter (fun p => !isZeroTriple p) ∧
    parse_radar1 b = [] ∧
    parse_radar2 b = [] := by
  have h1 : parse_radar b = (recs.map decodeRecord).filter (fun p => !isZeroTriple p) := by
    unfold parse_radar
    rw [parseBody_radar_eq b idx hm hlen, if_neg (Nat.not_lt.mpr hcap),
      readPointsAbs_eq_rel, readPointsRel_eq_chunk, hdrop,
      chunk16_flatten recs (tlvLengthAt b idx / 16) rest hall (le_of_lt hcount) hrest]
  have h2 : parse_radar1 b = [] := by
    unfold parse_radar1
    rw [parseBody_radar1_eq b idx hm hlen]
    by_cases ht : tlvTypeAt b idx ≠ 1
    · rw [if_pos ht]
    · rw [if_neg ht, if_neg (Nat.not_lt.mpr hcap)]
      have hshort : (b.drop (idx + 48)).length < 16 * (tlvLengthAt b idx / 16) := by
        rw [hdrop, List.length_append, flatten_length_of_all16 recs hall]
        omega
      rw [readPointsOptAbs_eq_rel, readPointsOptRel_none _ _ hshort]
  exact ⟨h1, by rw [← parse_radar_eq_parse_iwr1843]; exact h1,
    h2, by rw [← parse_radar1_eq_parse_radar2]; exact h2⟩

/-- Witness for the amended C3 at the truncated two-record frame. -/
theorem C3_partial_tail_witness :
    parse_radar (mkFrame 1 32 (recOne ++ [1, 2, 3, 4, 5, 6, 7, 8])) =
      ([recOne].map decodeRecord).filter (fun p => !isZeroTriple p) ∧
    parse_iwr1843 (mkFrame 1 32 (recOne ++ [1, 2, 3, 4, 5, 6, 7, 8])) =
      ([recOne].map decodeRecord).filter (fun p => !isZeroTriple p) ∧
    parse_radar1 (mkFrame 1 32 (recOne ++ [1, 2, 3, 4, 5, 6, 7, 8])) = [] ∧
    parse_radar2 (mkFrame 1 32 (recOne ++ [1, 2, 3, 4, 5, 6, 7, 8])) = [] :=
  C3_partial_tail (mkFrame 1 32 (recOne ++ [1, 2, 3, 4, 5, 6, 7, 8])) 0
    [recOne] [1, 2, 3, 4, 5, 6, 7, 8]
    (by decide) (by decide) (by decide) (by decide) (by decide) (by decide) (by decide)

/-- **C4**: in any capture-loop iteration that received bytes and finds
the sync marker in the accumulated buffer, the buffer is cleared to empty
afterwards, whether or not a frame was decoded; consequently, when one
poll delivers two complete frames at once, only the first frame's points
are ever handed to the consumer — here the run delivers `[pOne]` only,
although the second frame alone decodes to `[pTwo]`. -/
theorem C4_buffer_cleared :
    (∀ (s : RadarState) (bytes : List Nat), bytes.length ≠ 0 →
      (findMagic (s.buffer ++ bytes)).isSome = true →
      (capture_step s bytes).1.buffer = []) ∧
    (runWorker capturingState
        [CapEvent.recv (mkFrame 1 16 recOne ++ mkFrame 1 16 recTwo),
         CapEvent.recv []]).2 = [[pOne]] ∧
    parse_radar (mkFrame 1 16 recTwo) = [pTwo] ∧
    pTwo ∉ [pOne] := by
  refine ⟨?_, by decide, by decide, by decide⟩
  intro s bytes h1 h2
  unfold capture_step
  rw [if_neg h1, if_pos h2]

/-- Witness for C4's universally quantified clearing property at a
concrete iteration that decodes a frame successfully. -/
theorem C4_buffer_cleared_witness :
    (mkFrame 1 16 recOne).length ≠ 0 ∧
    (capture_step capturingState (mkFrame 1 16 recOne)).1.buffer = [] :=
  ⟨by decide,
    C4_buffer_cleared.1 capturingState (mkFrame 1 16 recOne) (by decide) (by decide)⟩

/-- **C5** (as stated, refuted): the partially received frame's bytes are
NOT preserved.  With the marker plus two header bytes buffered (well under
40), the iteration clears the buffer to empty instead of keeping the
bytes for the next iteration. -/
theorem C5_counterexample :
    (capture_step capturingState (MAGIC_WORD ++ [0, 0])).1.buffer = [] ∧
    capturingState.buffer ++ (MAGIC_WORD ++ [0, 0]) ≠ [] := by decide

/-- **C5** (amended): with fewer than 40 bytes available from the sync
offset, the decode step fails internally (header or TLV unpack error),
the public result is the empty list (no user-visible error), and the loop
iteration delivers no frame — but it clears the buffered bytes rather
than preserving them. -/
theorem C5_short_header (b : List Nat) (idx : Nat)
    (hm : findMagic b = some idx) (hshort : b.length < idx + 40) :
    (parseBody_radar b = .error .headerShort ∨ parseBody_radar b = .error .tlvShort) ∧
    parse_radar b = [] ∧
    (∀ (s : RadarState) (incoming : List Nat), incoming.length ≠ 0 →
      s.buffer ++ incoming = b →
      capture_step s incoming = ({ s with buffer := [], points_count := 0 }, none)) := by
  have herr := parseBody_radar_short b idx hm hshort
  have hnil : parse_radar b = [] := by
    rcases herr with h | h
    · exact parse_radar_error b _ h
    · exact parse_radar_error b _ h
  refine ⟨herr, hnil, ?_⟩
  intro s incoming hne hb
  have hsome : (findMagic b).isSome = true := by rw [hm]; rfl
  unfold capture_step
  rw [if_neg hne, hb, if_pos hsome, hnil]
  simp

/-- Witness for the amended C5 at a 10-byte buffer (marker + 2 bytes). -/
theorem C5_short_header_witness :
    capture_step capturingState (MAGIC_WORD ++ [0, 0]) =
      ({ capturingState with buffer := [], points_count := 0 }, none) :=
  (C5_short_header (MAGIC_WORD ++ [0, 0]) 0 (by decide) (by decide)).2.2
    capturingState (MAGIC_WORD ++ [0, 0]) (by decide) rfl

/-- **C6** (as stated, refuted): the four `_parse_pointcloud` copies are
not behaviorally equivalent.  On a frame whose TLV type is 2, `radar.py`
decodes and returns the point while `radar1.py` rejects the TLV type and
returns the empty list. -/
theorem C6_counterexample :
    parse_radar (mkFrame 2 16 recOne) = [pOne] ∧
    parse_radar1 (mkFrame 2 16 recOne) = [] := by decide

/-- **C6** (amended): the copies form two behavioral classes —
`radar.py` = `iwr1843.py` and `radar1.py` = `radar2.py` on every buffer —
and the two classes agree whenever the TLV type is 1 and the record area
announced by `tlvLength` is fully present. -/
theorem C6_two_classes :
    (∀ b, parse_radar b = parse_iwr1843 b) ∧
    (∀ b, parse_radar1 b = parse_radar2 b) ∧
    (∀ (b : List Nat) (idx : Nat), findMagic b = some idx → idx + 48 ≤ b.length →
      tlvTypeAt b idx = 1 →
      16 * (tlvLengthAt b idx / 16) ≤ b.length - (idx + 48) →
      parse_radar b = parse_radar1 b) := by
  refine ⟨parse_radar_eq_parse_iwr1843, parse_radar1_eq_parse_radar2, ?_⟩
  intro b idx hm hlen ht hfull
  unfold parse_radar parse_radar1
  rw [parseBody_radar_eq b idx hm hlen, parseBody_radar1_eq b idx hm hlen,
    if_neg (show ¬(tlvTypeAt b idx ≠ 1) from by simp [ht])]
  by_cases hcap : 1000 < tlvLengthAt b idx / 16
  · rw [if_pos hcap, if_pos hcap]
  · have h16 : 16 * (tlvLengthAt b idx / 16) ≤ (b.drop (idx + 48)).length := by
      rw [List.length_drop]; omega
    rw [if_neg hcap, if_neg hcap, readPointsOptAbs_eq_rel,
      readPointsOptRel_some _ _ h16, readPointsAbs_eq_rel]

/-- Witness for the amended C6 at a complete type-1 single-point frame. -/
theorem C6_two_classes_witness :
    parse_radar (mkFrame 1 16 recOne) = parse_radar1 (mkFrame 1 16 recOne) :=
  C6_two_classes.2.2 (mkFrame 1 16 recOne) 0 (by decide) (by decide) (by decide) (by decide)

/-- **C7** (as stated, refuted): after an exception in the worker's
iteration the `capturing` flag is not left in its pre-failure state: it
was true before the failure and the exiting worker resets it to false. -/
theorem C7_counterexample :
    (runWorker { connected := true, running := true, capturing := true,
                 buffer := [1, 2, 3], points_count := 5, workers := 1 }
      [CapEvent.raise]).1.capturing = false ∧
    ({ connected := true, running := true, capturing := true,
       buffer := [1, 2, 3], points_count := 5, workers := 1 } : RadarState).capturing
      = true := by decide

/-- **C7** (amended): an unexpected exception in a running worker's
iteration is caught and the worker terminates silently — no further
events are processed, nothing is delivered, and the buffer, `running` and
`connected` keep their pre-failure values — but on exit the worker sets
`capturing` to false rather than leaving it untouched. -/
theorem C7_worker_exception (s : RadarState) (rest : List CapEvent)
    (h : s.running = true) :
    runWorker s (CapEvent.raise :: rest) = ({ s with capturing := false }, []) := by
  simp [runWorker, h]

/-- Witness for the amended C7 with one pending event after the failure. -/
theorem C7_worker_exception_witness :
    runWorker capturingState [CapEvent.raise, CapEvent.recv [1]] =
      ({ capturingState with capturing := false }, []) :=
  C7_worker_exception capturingState [CapEvent.recv [1]] rfl

/-- **C8**: `start_capture` on a disconnected or already-capturing radar
is a failing no-op — the state is returned unchanged and no worker is
added — and a second `start_capture` right after a successful one fails
and leaves exactly the one worker of the first call active. -/
theorem C8_start_capture_guard :
    (∀ s : RadarState, s.connected = false ∨ s.capturing = true →
      start_capture s = (s, false)) ∧
    (∀ s : RadarState, s.connected = true → s.capturing = false → s.workers = 0 →
      (start_capture s).2 = true ∧
      (start_capture s).1.workers = 1 ∧
      (start_capture (start_capture s).1).2 = false ∧
      (start_capture (start_capture s).1).1 = (start_capture s).1) := by
  constructor
  · intro s hs
    rcases hs with h | h <;> simp [start_capture, h]
  · intro s hc hcap hw
    simp [start_capture, hc, hcap, hw]

/-- Witness for C8 at a freshly connected idle session. -/
theorem C8_start_capture_guard_witness :
    (start_capture ⟨true, false, false, [], 0, 0⟩).2 = true ∧
    (start_capture ⟨true, false, false, [], 0, 0⟩).1.workers = 1 ∧
    (start_capture (start_capture ⟨true, false, false, [], 0, 0⟩).1).2 = false ∧
    (start_capture (start_capture ⟨true, false, false, [], 0, 0⟩).1).1 =
      (start_capture ⟨true, false, false, [], 0, 0⟩).1 :=
  C8_start_capture_guard.2 ⟨true, false, false, [], 0, 0⟩ rfl rfl rfl

/-- **C9**: the decoders are total at their public interface — with no
sync marker all four return the empty list; every internal parse failure
of `radar.py` becomes the empty list; and any buffer either yields the
empty list or was well-formed enough to carry a marker with a full
header/TLV region. -/
theorem C9_total_interface (b : List Nat) :
    (findMagic b = none →
      parse_radar b = [] ∧ parse_radar1 b = [] ∧
      parse_radar2 b = [] ∧ parse_iwr1843 b = []) ∧
    (∀ e, parseBody_radar b = .error e → parse_radar b = []) ∧
    (∀ e, parseBody_radar2 b = .error e → parse_radar2 b = []) ∧
    (parse_radar b = [] ∨ ∃ idx, findMagic b = some idx ∧ idx + 48 ≤ b.length) := by
  refine ⟨?_, fun e h => parse_radar_error b e h,
    fun e h => by unfold parse_radar2; rw [h], ?_⟩
  · intro h
    refine ⟨?_, ?_, ?_, ?_⟩ <;>
      simp [parse_radar, parse_radar1, parse_radar2, parse_iwr1843,
        parseBody_radar, parseBody_radar1, parseBody_radar2, parseBody_iwr1843, h]
  · by_cases h : parse_radar b = []
    · exact Or.inl h
    · exact Or.inr (parse_radar_ne_nil b h)

/-- Witness for C9 at a marker-free three-byte buffer. -/
theorem C9_total_interface_witness :
    findMagic [1, 2, 3] = none ∧
    parse_radar [1, 2, 3] = [] ∧ parse_radar1 [1, 2, 3] = [] ∧
    parse_radar2 [1, 2, 3] = [] ∧ parse_iwr1843 [1, 2, 3] = [] :=
  ⟨by decide, (C9_total_interface [1, 2, 3]).1 (by decide)⟩

/-- **C10**: the point count is the floor `tlvLength / 16`; the cap test
compares 1000 against that floored value; and within the cap the result
depends only on the first `16 * (tlvLength / 16)` bytes of the record
area, so a trailing remainder of fewer than 16 bytes is never decoded as
a partial record. -/
theorem C10_floor_division (b : List Nat) (idx : Nat)
    (hm : findMagic b = some idx) (hlen : idx + 48 ≤ b.length) :
    (1000 < tlvLengthAt b idx / 16 → parse_radar b = []) ∧
    (tlvLengthAt b idx / 16 ≤ 1000 →
      parse_radar b =
        readPointsRel ((b.drop (idx + 48)).take (16 * (tlvLengthAt b idx / 16)))
          (tlvLengthAt b idx / 16)) := by
  constructor
  · intro hcap
    unfold parse_radar
    rw [parseBody_radar_eq b idx hm hlen, if_pos hcap]
  · intro hle
    unfold parse_radar
    rw [parseBody_radar_eq b idx hm hlen, if_neg (Nat.not_lt.mpr hle),
      readPointsAbs_eq_rel, readPointsRel_take]

/-- Witness for C10 at a frame with tlvLength 17 (one full record plus a
one-byte remainder, which is ignored). -/
theorem C10_floor_division_witness :
    tlvLengthAt (mkFrame 1 17 (recOne ++ [99])) 0 = 17 ∧
    parse_radar (mkFrame 1 17 (recOne ++ [99])) =
      readPointsRel (((mkFrame 1 17 (recOne ++ [99])).drop 48).take
        (16 * (tlvLengthAt (mkFrame 1 17 (recOne ++ [99])) 0 / 16)))
        (tlvLengthAt (mkFrame 1 17 (recOne ++ [99])) 0 / 16) :=
  ⟨by decide,
    (C10_floor_division (mkFrame 1 17 (recOne ++ [99])) 0 (by decide) (by decide)).2
      (by decide)⟩

end HITRadar
